import Mathlib

set_option maxRecDepth 8000

/-!
Verification of the kindle-lock reading-progress tracker.

The definitions below are a shallow embedding of the core modules:
  * the progress ledger  (src/archived/src/database.py),
  * the progress extractor and session navigator (src/archived/src/scraper.py),
  * the scrape orchestrator, batch and streaming (src/archived/src/scraper.py).

SQLite tables are modelled as association lists inside a single `DB` state and
each SQL statement as a pure state transformation, executed sequentially in
program order.  Statements on one open connection see that connection's own
uncommitted writes, and the `with get_db()` context commits them on exit; a
read through a freshly opened connection, as performed by the nested
`get_setting()` / `get_today_stats()` calls inside `record_progress`, sees
only the state committed before the enclosing call.
`CURRENT_TIMESTAMP` / `datetime.now().isoformat()` produce
values the code never inspects beyond ordering, so timestamps are modelled as a
monotone counter `DB.clock`.
-/

namespace KindleLock

/-- One row of the `books` table (asin is the key of the association list). -/
structure BookRecord where
  title : String
  authors : List String
  total_pages : Option Int
  cover_url : Option String
  last_updated : Nat
deriving DecidableEq, Repr

/-- One row of the append-only `reading_progress` table. -/
structure Snapshot where
  asin : String
  position : Int
  percent : Int
  recorded_at : Nat
deriving DecidableEq, Repr

/-- One row of the `daily_stats` table (the date key is the assoc-list key). -/
structure DailyRow where
  pages_read : Int
  goal_met_at : Option Nat
  last_updated : Nat
deriving DecidableEq, Repr

/-- The whole SQLite database.  Calendar dates (`YYYY-MM-DD` strings in the
code) are modelled as integer day ordinals, so that "previous calendar date"
is subtraction of one. -/
structure DB where
  books : List (String × BookRecord)
  progress : List Snapshot
  daily : List (Int × DailyRow)
  settingsRows : List (String × String)
  clock : Nat
deriving DecidableEq, Repr

/-- Modelled from the spec: the Settings provider (the config module is not
under src/) supplies the static fallback defaults `daily_page_goal_default`
and `day_reset_hour_default` used when the settings table has no row. -/
structure Env where
  daily_page_goal : Int
  day_reset_hour : Int
deriving DecidableEq, Repr

/-- A wall-clock moment (`datetime.now()`): calendar date as an integer day
ordinal plus hour and minute of day. -/
structure Moment where
  day : Int
  hour : Nat
  minute : Nat
deriving DecidableEq, Repr

/-- SELECT by primary key on an association list. -/
def lookupA {κ β : Type} [DecidableEq κ] (k : κ) : List (κ × β) → Option β
  | [] => none
  | (k2, v) :: rest => if k = k2 then some v else lookupA k rest

/-- UPDATE of the row with key `k` (no-op when the key is absent). -/
def updateAssoc {κ β : Type} [DecidableEq κ] (k : κ) (f : β → β) :
    List (κ × β) → List (κ × β)
  | [] => []
  | (k2, v) :: rest =>
    if k = k2 then (k2, f v) :: rest else (k2, v) :: updateAssoc k f rest

/-- get_setting: `SELECT value FROM settings WHERE key = ?`. -/
def get_setting (db : DB) (key : String) : Option String :=
  lookupA key db.settingsRows

/-- set_setting: `INSERT OR REPLACE INTO settings`. -/
def set_setting (db : DB) (key value : String) : DB :=
  match lookupA key db.settingsRows with
  | some _ => { db with settingsRows := updateAssoc key (fun _ => value) db.settingsRows }
  | none => { db with settingsRows := db.settingsRows ++ [(key, value)] }

/-- Decimal digit string to number (the stored settings values are decimal
digit strings; Python `int()` raises on anything else, which is out of scope). -/
def parseDigitsNat (ds : List Char) : Nat :=
  ds.foldl (fun acc c => acc * 10 + (c.toNat - 48)) 0

/-- Python `int(s)` on a decimal digit string. -/
def parseIntS (s : String) : Int :=
  Int.ofNat (parseDigitsNat s.toList)

/-- Hour resolution `int(get_setting("day_reset_hour") or settings.day_reset_hour)`:
a missing row or an empty (falsy) string falls back to the static default. -/
def resolveResetHour (db : DB) (env : Env) : Int :=
  match get_setting db "day_reset_hour" with
  | some v => if v = "" then env.day_reset_hour else parseIntS v
  | none => env.day_reset_hour

/-- Goal resolution `int(get_setting("daily_page_goal") or settings.daily_page_goal)`. -/
def resolveGoal (db : DB) (env : Env) : Int :=
  match get_setting db "daily_page_goal" with
  | some v => if v = "" then env.daily_page_goal else parseIntS v
  | none => env.daily_page_goal

/-- get_today_key: before the reset hour the key is the previous calendar
date, otherwise the current calendar date. -/
def get_today_key (now : Moment) (db : DB) (env : Env) : Int :=
  let reset_hour := resolveResetHour db env
  if (now.hour : Int) < reset_hour then now.day - 1 else now.day

/-- upsert_book: `INSERT ... ON CONFLICT(asin) DO UPDATE` where title and
authors are overwritten and `total_pages` / `cover_url` use
`COALESCE(excluded.x, books.x)` (a NULL new value keeps the stored one). -/
def upsert_book (db : DB) (asin title : String) (authors : List String)
    (total_pages : Option Int) (cover_url : Option String) : DB :=
  match lookupA asin db.books with
  | none =>
    { db with
      books := db.books ++ [(asin, ⟨title, authors, total_pages, cover_url, db.clock⟩)],
      clock := db.clock + 1 }
  | some old =>
    { db with
      books := updateAssoc asin (fun _ =>
        ⟨title, authors,
         (match total_pages with | some v => some v | none => old.total_pages),
         (match cover_url with | some v => some v | none => old.cover_url),
         db.clock⟩) db.books,
      clock := db.clock + 1 }

/-- The query `SELECT position FROM reading_progress WHERE asin = ?
ORDER BY recorded_at DESC LIMIT 1`: the snapshot of that book with the largest
recorded_at (later insertions win ties; insertions get strictly increasing
stamps, so ties do not occur in reachable states). -/
def lastSnapshot (db : DB) (asin : String) : Option Snapshot :=
  (db.progress.filter (fun s => s.asin == asin)).foldl
    (fun acc s =>
      match acc with
      | none => some s
      | some t => if t.recorded_at ≤ s.recorded_at then some s else some t) none

/-- pages_read of a date row; a missing row reads as 0 (as in get_today_stats). -/
def pagesRead (db : DB) (d : Int) : Int :=
  match lookupA d db.daily with
  | some r => r.pages_read
  | none => 0

/-- goal_met_at of a date row; a missing row reads as NULL. -/
def goalMetAt (db : DB) (d : Int) : Option Nat :=
  match lookupA d db.daily with
  | some r => r.goal_met_at
  | none => none

/-- The statement `INSERT INTO daily_stats (date, pages_read, last_updated)
VALUES (?, ?, CURRENT_TIMESTAMP) ON CONFLICT(date) DO UPDATE SET
pages_read = daily_stats.pages_read + ?`. -/
def dailyAdd (db : DB) (d : Int) (delta : Int) : DB :=
  match lookupA d db.daily with
  | none => { db with daily := db.daily ++ [(d, ⟨delta, none, db.clock⟩)] }
  | some _ =>
    { db with
      daily := updateAssoc d
        (fun r => { r with pages_read := r.pages_read + delta, last_updated := db.clock })
        db.daily }

/-- The statement `UPDATE daily_stats SET goal_met_at = CURRENT_TIMESTAMP
WHERE date = ?`. -/
def setGoalMet (db : DB) (d : Int) : DB :=
  { db with daily := updateAssoc d (fun r => { r with goal_met_at := some db.clock }) db.daily }

/-- Result shape of get_today_stats. -/
structure TodayStats where
  date : Int
  pages_read : Int
  page_goal : Int
  goal_met : Bool
  goal_met_at : Option Nat
  pages_remaining : Int
deriving DecidableEq, Repr

/-- get_today_stats. -/
def get_today_stats (env : Env) (now : Moment) (db : DB) : TodayStats :=
  let today := get_today_key now db env
  let goal := resolveGoal db env
  match lookupA today db.daily with
  | some r =>
    ⟨today, r.pages_read, goal, decide (goal ≤ r.pages_read), r.goal_met_at,
     max 0 (goal - r.pages_read)⟩
  | none => ⟨today, 0, goal, false, none, goal⟩

/-- The unconditional snapshot insert
`INSERT INTO reading_progress (asin, position, percent_complete) VALUES (?, ?, ?)`. -/
def withSnapshot (db : DB) (asin : String) (position percent : Int) : DB :=
  { db with
    progress := db.progress ++ [⟨asin, position, percent, db.clock⟩],
    clock := db.clock + 1 }

/-- record_progress: always insert a snapshot; when a previous snapshot exists
and the position strictly increased, add the delta to the day-keyed aggregate
and, if the goal check passes while goal_met_at is unset, set it.  The
function body runs on one connection whose writes (the snapshot insert, the
daily_stats upsert, the goal_met_at update) are committed only when the
`with get_db()` block exits, so they see each other; but the nested
`get_setting()` and `get_today_stats()` calls each open a fresh SQLite
connection, which cannot see those uncommitted writes and reads only the
state committed before the call — the input state `db`.  The goal check
therefore compares the goal against the pre-delta committed pages_read. -/
def record_progress (env : Env) (now : Moment) (db : DB) (asin : String)
    (position : Int) (percent : Int) : DB :=
  let today := get_today_key now db env
  let last := lastSnapshot db asin
  let db1 : DB := withSnapshot db asin position percent
  match last with
  | none => db1
  | some prev =>
    if prev.position < position then
      let delta := position - prev.position
      let db2 := dailyAdd db1 today delta
      let goal := resolveGoal db env
      let stats := get_today_stats env now db
      if goal ≤ stats.pages_read ∧ stats.goal_met_at = none then
        setGoalMet db2 today
      else db2
    else db1

/-- reset_daily_stats: `DELETE FROM daily_stats`. -/
def reset_daily_stats (db : DB) : DB :=
  { db with daily := [] }

/-- reset_all_progress: `DELETE FROM reading_progress; DELETE FROM daily_stats`. -/
def reset_all_progress (db : DB) : DB :=
  { db with progress := [], daily := [] }

/-!
Progress extractor: the `findPattern` helper of
`get_book_progress_from_reader`, its ordered regex rules and their
normalization (scraper.py lines 319-415).  Text is a list of characters; the
JavaScript regex search (leftmost match wins, `\d+` and `\s+` greedy against
disjoint follow sets) is realised by trying a matcher at every start
position, left to right, with maximal munch.
-/

/-- Character class of the regex `\s`. -/
def isSpaceC (c : Char) : Bool :=
  c == Char.ofNat 32 || c == Char.ofNat 9 || c == Char.ofNat 10 ||
  c == Char.ofNat 13 || c == Char.ofNat 12 || c == Char.ofNat 11

/-- Consume a case-insensitive literal (given in lowercase), returning the
rest of the text, or fail. -/
def stripCI : List Char → List Char → Option (List Char)
  | [], t => some t
  | _ :: _, [] => none
  | l :: ls, c :: cs => if c.toLower = l then stripCI ls cs else none

/-- Drop a maximal run of whitespace. -/
def dropSpaces : List Char → List Char
  | [] => []
  | c :: cs => if isSpaceC c then dropSpaces cs else c :: cs

/-- The regex piece `\s+`: at least one whitespace character, munched maximally. -/
def spaces1 : List Char → Option (List Char)
  | [] => none
  | c :: cs => if isSpaceC c then some (dropSpaces cs) else none

/-- Split off a maximal run of digits. -/
def munchDigits : List Char → List Char × List Char
  | [] => ([], [])
  | c :: cs =>
    if c.isDigit then ((c :: (munchDigits cs).1), (munchDigits cs).2)
    else ([], c :: cs)

/-- The regex piece `(\d+)`: at least one digit, captured as a number. -/
def digits1 : List Char → Option (Nat × List Char)
  | [] => none
  | c :: cs =>
    if c.isDigit then some (parseDigitsNat (c :: (munchDigits cs).1), (munchDigits cs).2)
    else none

/-- The shared regex tail `(\d+)\s+of\s+(\d+)` of the three numeric rules. -/
def numOfNum (t : List Char) : Option (Nat × Nat × List Char) :=
  match digits1 t with
  | none => none
  | some (c, r1) =>
    match spaces1 r1 with
    | none => none
    | some r2 =>
      match stripCI ("of".toList) r2 with
      | none => none
      | some r3 =>
        match spaces1 r3 with
        | none => none
        | some r4 =>
          match digits1 r4 with
          | none => none
          | some (tot, r5) => some (c, tot, r5)

/-- Rule 1 at one position: `/Page\s+(\d+)\s+of\s+(\d+)/i`. -/
def pageMatchAt (t : List Char) : Option (Nat × Nat) :=
  match stripCI ("page".toList) t with
  | none => none
  | some r =>
    match spaces1 r with
    | none => none
    | some r2 => (numOfNum r2).map (fun x => (x.1, x.2.1))

/-- Rule 2 at one position: `/Loc(?:ation)?\s+(\d+)\s+of\s+(\d+)/i`. -/
def locMatchAt (t : List Char) : Option (Nat × Nat) :=
  match stripCI ("loc".toList) t with
  | none => none
  | some r =>
    let r1 := match stripCI ("ation".toList) r with
      | some r2 => r2
      | none => r
    match spaces1 r1 with
    | none => none
    | some r2 => (numOfNum r2).map (fun x => (x.1, x.2.1))

/-- Rule 3, anchored: `/^(\d+)\s+of\s+(\d+)$/i`. -/
def genericMatch (t : List Char) : Option (Nat × Nat) :=
  match numOfNum t with
  | none => none
  | some (c, tot, r) => if r.isEmpty then some (c, tot) else none

/-- Rule 4 at one position: `/(\d+)%/`. -/
def percentMatchAt (t : List Char) : Option Nat :=
  match digits1 t with
  | none => none
  | some (p, r) =>
    match r with
    | c :: _ => if c = '%' then some p else none
    | [] => none

/-- Leftmost-match regex search: try the matcher at every start position. -/
def scanWith {α : Type} (m : List Char → Option α) : List Char → Option α
  | [] => m []
  | c :: cs =>
    match m (c :: cs) with
    | some r => some r
    | none => scanWith m cs

/-- Which rule produced a match (the `type` field of findPattern). -/
inductive MatchKind
  | page | location | generic | percent
deriving DecidableEq, Repr

/-- The value returned by findPattern. -/
inductive Found
  | numeric (current total : Nat) (kind : MatchKind)
  | percentOnly (p : Nat)
deriving DecidableEq, Repr

/-- findPattern: the four rules tried in fixed priority order on one text
fragment; the first rule that matches anywhere in the fragment wins. -/
def findPattern (t : List Char) : Option Found :=
  match scanWith pageMatchAt t with
  | some pr => some (Found.numeric pr.1 pr.2 MatchKind.page)
  | none =>
    match scanWith locMatchAt t with
    | some pr => some (Found.numeric pr.1 pr.2 MatchKind.location)
    | none =>
      match genericMatch t with
      | some pr => some (Found.numeric pr.1 pr.2 MatchKind.generic)
      | none =>
        match scanWith percentMatchAt t with
        | some p => some (Found.percentOnly p)
        | none => none

/-- Normalized progress record `{current, total, percent}`. -/
structure ProgressInfo where
  current : Nat
  total : Nat
  percent : Nat
deriving DecidableEq, Repr

/-- JavaScript `Math.round((current / total) * 100)` for positive integers:
round half away from zero, i.e. floor(100*c/t + 1/2).  (A zero total gives a
non-finite value upstream and never reaches the ledger; it is mapped to 0
here and is outside every claim.) -/
def jsRound100 (c t : Nat) : Nat :=
  (200 * c + t) / (2 * t)

/-- The normalization applied to a findPattern result: a numeric match gets
`percent = round(current/total*100)`, a percent-only match becomes
`(current = percent, total = 100)`. -/
def applyFound (f : Found) : ProgressInfo :=
  match f with
  | Found.numeric c tot _ => ⟨c, tot, jsRound100 c tot⟩
  | Found.percentOnly p => ⟨p, 100, p⟩

/-- Extraction result for one text fragment. -/
def extractFragment (t : List Char) : Option ProgressInfo :=
  (findPattern t).map applyFound

/-- Substring test (JavaScript `includes`, Python `in`). -/
def containsSub (sub : List Char) : List Char → Bool
  | [] => sub.isEmpty
  | c :: cs => sub.isPrefixOf (c :: cs) || containsSub sub cs

/-- Substring test on strings. -/
def containsStr (sub s : String) : Bool := containsSub sub.toList s.toList

/-!
Session navigator: the login-check loop `is_logged_in` (scraper.py lines
78-208).  The page sequence the browser presents is external input, so the
loop is modelled over a list of page views; URLs are the already-lowercased
`self.page.url.lower()` values.  Credentials are `settings.amazon_email` /
`settings.amazon_password`; Python treats an empty string as unconfigured, so
a configured credential is modelled as `some` of a value.
-/

/-- The `auth_pages` URL markers. -/
def authPagesList : List String :=
  ["signin", "ap/signin", "ap/mfa", "ap/cvf", "ap/dcq", "primememberpromo",
   "verification", "challenge"]

/-- The multi-factor/verification/challenge subtype markers checked inside
the auth branch. -/
def mfaMarkers : List String :=
  ["ap/mfa", "ap/cvf", "ap/dcq", "challenge", "verification"]

/-- Page classification, in the branch order of the loop body: library
short-circuit, landing, auth page (with the manual-intervention subtype
flag), unknown. -/
inductive PageClass
  | library
  | landing
  | authChallenge (manual : Bool)
  | unknownPage
deriving DecidableEq, Repr

/-- Classify one (lowercased) URL exactly as the loop body tests it. -/
def classifyPage (url : String) : PageClass :=
  if containsStr "read.amazon.com/kindle-library" url then PageClass.library
  else if containsStr "landing" url then PageClass.landing
  else if authPagesList.any (fun p => containsStr p url) then
    PageClass.authChallenge (mfaMarkers.any (fun p => containsStr p url))
  else PageClass.unknownPage

/-- Configured credentials. -/
structure Creds where
  email : Option String
  password : Option String
deriving DecidableEq, Repr

/-- The DOM state of an auth page as the loop body queries it: field values
(`none` = locator count 0), button presence, sign-in button labels (already
lowercased), and the password field as re-queried after clicking the
password sign-in option. -/
structure AuthView where
  emailFieldValue : Option String
  contBtnPresent : Bool
  passwordFieldValue : Option String
  signInBtnLabels : List String
  passwordFieldValueAfterClick : Option String
  submitBtnPresent : Bool
deriving DecidableEq, Repr

/-- One page the loop observes: its URL and its auth-page DOM state. -/
structure PageView where
  url : String
  auth : AuthView
deriving DecidableEq, Repr

/-- Page interactions the loop body can perform. -/
inductive LoginAction
  | clickSignInWithAccount
  | fillEmailField (value : String)
  | clickContinueBtn
  | clickSignInOption (label : String)
  | fillPasswordField
  | clickSubmitBtn
  | gotoLibraryUrl
deriving DecidableEq, Repr

/-- Outcome of one loop attempt. -/
inductive StepVerdict
  | success
  | twofa
  | abortNoCreds
  | continueLoop
deriving DecidableEq, Repr

/-- The email part of the auth branch: fill an empty email field when an
email credential is configured (plus the optional continue click); an empty
field without credentials returns False.  Returns `none` for that early
False return, otherwise the actions performed. -/
def emailPhase (cr : Creds) (v : AuthView) : Option (List LoginAction) :=
  match v.emailFieldValue with
  | some val =>
    if val.isEmpty then
      match cr.email with
      | some e =>
        some (LoginAction.fillEmailField e ::
          (if v.contBtnPresent then [LoginAction.clickContinueBtn] else []))
      | none => none
    else some []
  | none => some []

/-- When no password field is visible, click the first sign-in button whose
label does not mention "passkey" and re-query the password field. -/
def passwordResolve (v : AuthView) : Option String × List LoginAction :=
  match v.passwordFieldValue with
  | some val => (some val, [])
  | none =>
    match v.signInBtnLabels.find? (fun l => !(containsStr "passkey" l)) with
    | some lbl => (v.passwordFieldValueAfterClick, [LoginAction.clickSignInOption lbl])
    | none => (v.passwordFieldValueAfterClick, [])

/-- The password part: fill an empty password field when a password
credential is configured; an empty field without credentials returns False. -/
def passwordPhase (cr : Creds) (pf : Option String) : Option (List LoginAction) :=
  match pf with
  | some val =>
    if val.isEmpty then
      match cr.password with
      | some _ => some [LoginAction.fillPasswordField]
      | none => none
    else some []
  | none => some []

/-- The whole auth branch of the loop body (scraper.py lines 137-197). -/
def authPageActions (cr : Creds) (v : AuthView) : StepVerdict × List LoginAction :=
  match emailPhase cr v with
  | none => (StepVerdict.abortNoCreds, [])
  | some acts1 =>
    let pr := passwordResolve v
    match passwordPhase cr pr.1 with
    | none => (StepVerdict.abortNoCreds, acts1 ++ pr.2)
    | some acts3 =>
      (StepVerdict.continueLoop,
       acts1 ++ pr.2 ++ acts3 ++
         (if v.submitBtnPresent then [LoginAction.clickSubmitBtn] else []))

/-- One attempt of the login-check loop: verdict plus the page interactions
performed on that page. -/
def loginCheckStep (cr : Creds) (pv : PageView) : StepVerdict × List LoginAction :=
  match classifyPage pv.url with
  | PageClass.library => (StepVerdict.success, [])
  | PageClass.landing => (StepVerdict.continueLoop, [LoginAction.clickSignInWithAccount])
  | PageClass.authChallenge true => (StepVerdict.twofa, [])
  | PageClass.authChallenge false => authPageActions cr pv.auth
  | PageClass.unknownPage => (StepVerdict.continueLoop, [LoginAction.gotoLibraryUrl])

/-- The tri-valued result of is_logged_in (`True` / `False` / `"2fa"`). -/
inductive LoginResult
  | loggedIn
  | notLoggedIn
  | manual2fa
deriving DecidableEq, Repr

/-- Run the loop over the observed page sequence; an exhausted list models
exhausting the attempt bound. -/
def runLoginCheck (cr : Creds) : List PageView → LoginResult
  | [] => LoginResult.notLoggedIn
  | pv :: rest =>
    match (loginCheckStep cr pv).1 with
    | StepVerdict.success => LoginResult.loggedIn
    | StepVerdict.twofa => LoginResult.manual2fa
    | StepVerdict.abortNoCreds => LoginResult.notLoggedIn
    | StepVerdict.continueLoop => runLoginCheck cr rest

/-- is_logged_in: at most 5 attempts over the observed page sequence. -/
def is_logged_in (cr : Creds) (trace : List PageView) : LoginResult :=
  runLoginCheck cr (trace.take 5)

/-!
Library-view extraction: the per-item DOM walk of `get_library_and_progress`
(scraper.py lines 509-617).  One DOM library item is abstracted by the
queries the script makes of it; text values are the already-trimmed
`textContent` strings.
-/

/-- One DOM library item as the extraction script reads it. -/
structure RawItem where
  idAttr : String
  ariaLabel : Option String
  textNodes : List String
  imgSrc : Option String
  authorText : Option String
  percentReadText : Option String
  progressElText : Option String
  innerText : String
deriving DecidableEq, Repr

/-- One entry of the list `get_library_and_progress` returns. -/
structure LibExtracted where
  asin : String
  title : String
  authors : List String
  coverUrl : Option String
  totalPages : Nat
  currentPosition : Nat
  percentComplete : Nat
deriving DecidableEq, Repr

/-- The id pattern of library items. -/
def libraryItemIdMarker : String := "library-item-option-"

/-- The regex `/(\d+)/`: leftmost digit run as a number. -/
def firstNumber (s : String) : Option Nat :=
  scanWith (fun t => (digits1 t).map (fun x => x.1)) s.toList

/-- The regex `/(\d+)%/` searched over a whole string. -/
def percentNumber (s : String) : Option Nat :=
  scanWith percentMatchAt s.toList

/-- Title strategies: aria-label if truthy, else the first text node with
length in (3, 200), else "Unknown". -/
def fallbackTitle (it : RawItem) : String :=
  match it.textNodes.find? (fun t => decide (3 < t.length ∧ t.length < 200)) with
  | some t => t
  | none => "Unknown"

/-- Title of one item. -/
def itemTitle (it : RawItem) : String :=
  match it.ariaLabel with
  | some s => if s.isEmpty then fallbackTitle it else s
  | none => fallbackTitle it

/-- Percent strategies, each tried only while the running value is 0:
the `percentage-read-ASIN` element, then a class-matched progress element,
then a whole-item `%` scan. -/
def itemPercentComplete (it : RawItem) : Nat :=
  let p1 : Nat :=
    match it.percentReadText with
    | some s => match firstNumber s with | some n => n | none => 0
    | none => 0
  if p1 ≠ 0 then p1
  else
    let p2 : Nat :=
      match it.progressElText with
      | some s => match firstNumber s with | some n => n | none => 0
      | none => 0
    if p2 ≠ 0 then p2
    else
      match percentNumber it.innerText with
      | some n => n
      | none => 0

/-- One iteration of the extraction loop: skip sample items and items with an
empty asin, otherwise build the book record.  (`id.replace(marker, '')` is
prefix removal here because the items are selected by `[id^=...]`.) -/
def extractLibraryItem (it : RawItem) : Option LibExtracted :=
  if containsStr "sample" it.idAttr then none
  else
    let asin := (it.idAttr.toList.drop libraryItemIdMarker.length).asString
    if asin.isEmpty then none
    else
      some
        { asin := asin
          title := itemTitle it
          authors := (match it.authorText with | some a => [a] | none => [])
          coverUrl := it.imgSrc
          totalPages := 100
          currentPosition := itemPercentComplete it
          percentComplete := itemPercentComplete it }

/-- get_library_and_progress DOM walk: all items matching the id pattern,
extracted in order. -/
def getLibraryBooks (items : List RawItem) : List LibExtracted :=
  (items.filter (fun it =>
    libraryItemIdMarker.toList.isPrefixOf it.idAttr.toList)).filterMap
    extractLibraryItem

/-!
Scrape orchestrator: `scrape_and_save` (scraper.py lines 631-732) and
`scrape_and_save_streaming` (lines 734-882).  Results and events are Python
dicts, modelled as ordered key/value lists.  External effects are an oracle
`ScrapeWorld`: the page sequence the login check observes, whether `login()`
or the library fetch raises (those exceptions are caught at the orchestrator
boundary), the library DOM items, and each item's reader-extraction outcome
(`get_book_progress_from_reader` catches its own exceptions and returns `{}`,
so per-item acquisition never raises).
-/

/-- JSON-ish dict values. -/
inductive JVal
  | str (v : String)
  | int (v : Int)
  | bool (v : Bool)
  | null
  | strList (v : List String)
deriving DecidableEq, Repr

/-- A Python dict with insertion-ordered keys. -/
abbrev Dict := List (String × JVal)

/-- Option Int to a dict value (None becomes null). -/
def optIntVal : Option Int → JVal
  | some v => JVal.int v
  | none => JVal.null

/-- Option String to a dict value (None becomes null). -/
def optStrVal : Option String → JVal
  | some v => JVal.str v
  | none => JVal.null

/-- Reader-view outcome for one item, after the license-limit check and the
`current is not None` test. -/
inductive ItemOutcome
  | licenseLimit
  | progressFound (current total percent : Int)
  | noData
deriving DecidableEq, Repr

/-- percent_complete field of the book_complete event. -/
def itemPercentField : ItemOutcome → Option Int
  | ItemOutcome.progressFound _ _ p => some p
  | _ => none

/-- success field of the book_complete event. -/
def itemSuccessField : ItemOutcome → Bool
  | ItemOutcome.licenseLimit => false
  | _ => true

/-- error field of the book_complete event. -/
def itemErrorField : ItemOutcome → Option String
  | ItemOutcome.licenseLimit => some "license_limit"
  | _ => none

/-- Python `title[:40]`. -/
def take40 (s : String) : String := (s.toList.take 40).asString

/-- The oracle of external effects for one scrape pass.  `ts` stands for
every `datetime.now().isoformat()` of the pass and `dur` for the rounded
duration; the code never inspects them. -/
structure ScrapeWorld where
  creds : Creds
  loginTrace : List PageView
  loginRaises : Bool
  loginErrMsg : String
  libraryRaises : Bool
  libraryErrMsg : String
  libItems : List RawItem
  outcome : Nat → ItemOutcome
  ts : Int
  dur : Int

/-- The 2FA failure message. -/
def msg2fa : String :=
  "2FA/verification required. Run \x27make login\x27 with BROWSER_HEADLESS=false to complete manually."

/-- The missing-credentials failure message. -/
def msgNoCreds : String := "Not logged in and no credentials configured"

/-- The login precondition shared by both modes: `is_logged_in`, then on a
falsy result one `login()` when both credentials are configured.  `some msg`
is a fatal pass failure with that message, `none` means proceed. -/
def loginGate (w : ScrapeWorld) : Option String :=
  match is_logged_in w.creds w.loginTrace with
  | LoginResult.manual2fa => some msg2fa
  | LoginResult.loggedIn => none
  | LoginResult.notLoggedIn =>
    match w.creds.email, w.creds.password with
    | some _, some _ => if w.loginRaises then some w.loginErrMsg else none
    | _, _ => some msgNoCreds

/-- Mutable state threaded through the per-item loop. -/
structure PassState where
  db : DB
  withProgress : Nat
  licenseTitles : List String

/-- One iteration of the per-item loop, identical in both modes: upsert the
book metadata, then classify the reader outcome; license-limited items only
collect their (truncated) title, found progress refines total_pages when it
is a real total (truthy and not the 100 placeholder) and appends a snapshot,
a miss does nothing further. -/
def processItem (env : Env) (now : Moment) (w : ScrapeWorld) (i : Nat)
    (b : LibExtracted) (st : PassState) : PassState :=
  let db1 := upsert_book st.db b.asin b.title b.authors
    (some (Int.ofNat b.totalPages)) b.coverUrl
  match w.outcome i with
  | ItemOutcome.licenseLimit =>
    { st with db := db1, licenseTitles := st.licenseTitles ++ [take40 b.title] }
  | ItemOutcome.progressFound c t p =>
    let db2 :=
      if t ≠ 0 ∧ t ≠ 100 then upsert_book db1 b.asin b.title b.authors (some t) b.coverUrl
      else db1
    let db3 := record_progress env now db2 b.asin c p
    { db := db3, withProgress := st.withProgress + 1, licenseTitles := st.licenseTitles }
  | ItemOutcome.noData => { st with db := db1 }

/-- The batch per-item loop. -/
def runItems (env : Env) (now : Moment) (w : ScrapeWorld) :
    List LibExtracted → Nat → PassState → PassState
  | [], _, st => st
  | b :: rest, i, st => runItems env now w rest (i + 1) (processItem env now w i b st)

/-- The structured batch failure result `{success: False, error, timestamp}`. -/
def failDict (err : String) (ts : Int) : Dict :=
  [("success", JVal.bool false), ("error", JVal.str err), ("timestamp", JVal.int ts)]

/-- The batch success result; `license_limit_books` is added only when the
list is non-empty. -/
def successDict (n wp : Nat) (lims : List String) (ts : Int) : Dict :=
  let base : Dict :=
    [("success", JVal.bool true), ("books_scraped", JVal.int n),
     ("books_with_progress", JVal.int wp), ("timestamp", JVal.int ts)]
  if lims.isEmpty then base else base ++ [("license_limit_books", JVal.strList lims)]

/-- scrape_and_save: final database state and the summary dict. -/
def scrape_and_save (env : Env) (now : Moment) (w : ScrapeWorld) (db : DB) :
    DB × Dict :=
  match loginGate w with
  | some msg => (db, failDict msg w.ts)
  | none =>
    if w.libraryRaises then (db, failDict w.libraryErrMsg w.ts)
    else
      let books := getLibraryBooks w.libItems
      let stF := runItems env now w books 0 ⟨db, 0, []⟩
      (stF.db, successDict books.length stF.withProgress stF.licenseTitles w.ts)

/-- The started event. -/
def startedDict (total : Nat) (ts : Int) : Dict :=
  [("event", JVal.str "started"), ("total_books", JVal.int total),
   ("timestamp", JVal.int ts)]

/-- The book_progress event, emitted immediately before processing an item. -/
def bookProgressDict (cur total : Nat) (title asin : String) : Dict :=
  [("event", JVal.str "book_progress"), ("current", JVal.int cur),
   ("total", JVal.int total), ("book_title", JVal.str title),
   ("book_asin", JVal.str asin)]

/-- The book_complete event, emitted immediately after processing an item. -/
def bookCompleteDict (cur total : Nat) (title asin : String)
    (percent : Option Int) (success : Bool) (error : Option String) : Dict :=
  [("event", JVal.str "book_complete"), ("current", JVal.int cur),
   ("total", JVal.int total), ("book_title", JVal.str title),
   ("book_asin", JVal.str asin), ("percent_complete", optIntVal percent),
   ("success", JVal.bool success), ("error", optStrVal error)]

/-- The terminal completed event; `license_limit_books` is always present,
null when the list is empty. -/
def completedDict (n wp : Nat) (dur ts : Int) (lims : List String) : Dict :=
  [("event", JVal.str "completed"), ("success", JVal.bool true),
   ("books_scraped", JVal.int n), ("books_with_progress", JVal.int wp),
   ("duration_seconds", JVal.int dur), ("timestamp", JVal.int ts),
   ("license_limit_books", if lims.isEmpty then JVal.null else JVal.strList lims)]

/-- The terminal error event: only message and recoverable. -/
def errorDict (msg : String) (recoverable : Bool) : Dict :=
  [("event", JVal.str "error"), ("message", JVal.str msg),
   ("recoverable", JVal.bool recoverable)]

/-- The streaming per-item loop: a book_progress / book_complete pair around
the same item processing as the batch loop. -/
def runItemsStream (env : Env) (now : Moment) (w : ScrapeWorld) (n : Nat) :
    List LibExtracted → Nat → PassState → PassState × List Dict
  | [], _, st => (st, [])
  | b :: rest, i, st =>
    let o := w.outcome i
    let st1 := processItem env now w i b st
    let res := runItemsStream env now w n rest (i + 1) st1
    (res.1,
     bookProgressDict (i + 1) n (take40 b.title) b.asin ::
       bookCompleteDict (i + 1) n (take40 b.title) b.asin (itemPercentField o)
         (itemSuccessField o) (itemErrorField o) ::
       res.2)

/-- scrape_and_save_streaming: final database state and the ordered event
sequence. -/
def scrape_and_save_streaming (env : Env) (now : Moment) (w : ScrapeWorld)
    (db : DB) : DB × List Dict :=
  match loginGate w with
  | some msg => (db, [errorDict msg false])
  | none =>
    if w.libraryRaises then (db, [errorDict w.libraryErrMsg false])
    else
      let books := getLibraryBooks w.libItems
      let n := books.length
      let res := runItemsStream env now w n books 0 ⟨db, 0, []⟩
      (res.1.db,
       startedDict n w.ts ::
         (res.2 ++ [completedDict n res.1.withProgress w.dur w.ts res.1.licenseTitles]))

/-- Specification-side count of items whose outcome carries progress,
starting at item index i. -/
def progressCountFrom (w : ScrapeWorld) : Nat → List LibExtracted → Nat
  | _, [] => 0
  | i, _ :: rest =>
    (match w.outcome i with
     | ItemOutcome.progressFound _ _ _ => 1
     | _ => 0) + progressCountFrom w (i + 1) rest

/-- Specification-side list of truncated titles of license-limited items,
starting at item index i. -/
def licenseTitlesFrom (w : ScrapeWorld) : Nat → List LibExtracted → List String
  | _, [] => []
  | i, b :: rest =>
    (match w.outcome i with
     | ItemOutcome.licenseLimit => [take40 b.title]
     | _ => []) ++ licenseTitlesFrom w (i + 1) rest

/-!
Concrete sample inputs, used below to evaluate the definitions on closed
instances.
-/

/-- Fallback defaults as shipped (config defaults 30 pages, 4 AM). -/
def envW : Env := ⟨30, 4⟩

/-- The settings rows init_db inserts. -/
def settingsW : List (String × String) :=
  [("daily_page_goal", "30"), ("day_reset_hour", "4")]

/-- An empty database with default settings. -/
def dbEmptyW : DB := ⟨[], [], [], settingsW, 0⟩

/-- A database holding one snapshot of book b1 at position 50. -/
def dbSnapW : DB := ⟨[], [⟨"b1", 50, 16, 0⟩], [], settingsW, 1⟩

/-- Noon on day 100. -/
def nowNoonW : Moment := ⟨100, 12, 0⟩

/-- An auth view with nothing on the page. -/
def authViewW : AuthView := ⟨none, false, none, [], none, false⟩

/-- The library page. -/
def pvLibW : PageView := ⟨"https://read.amazon.com/kindle-library", authViewW⟩

/-- A customer-verification challenge page. -/
def pvMfaW : PageView := ⟨"https://www.amazon.com/ap/cvf?arb=abc123", authViewW⟩

/-- A landing page. -/
def pvLandingW : PageView := ⟨"https://read.amazon.com/landing", authViewW⟩

/-- One DOM library item. -/
def itemW : RawItem :=
  ⟨"library-item-option-b1", some "The Great Book", [], none, none,
   some "45%", none, "The Great Book 45%"⟩

/-- The extraction of itemW. -/
def bookW : LibExtracted := ⟨"b1", "The Great Book", [], none, 100, 45, 45⟩

/-- Configured credentials. -/
def credsW : Creds := ⟨some "user@example.com", some "hunter2"⟩

/-- A fatal-free scrape world: logged in at once, one item, no reader data. -/
def worldOkW : ScrapeWorld :=
  ⟨credsW, [pvLibW], false, "login failed", false, "library failed",
   [itemW], fun _ => ItemOutcome.noData, 5, 7⟩

/-- A fatally failing scrape world: not logged in and no credentials. -/
def worldNoCredsW : ScrapeWorld :=
  ⟨⟨none, none⟩, [], false, "login failed", false, "library failed",
   [], fun _ => ItemOutcome.noData, 5, 7⟩

/-!
Helper lemmas about the association-list primitives.
-/

theorem lookupA_append_ne {κ β : Type} [DecidableEq κ] (k d : κ) (v : β)
    (l : List (κ × β)) (h : d ≠ k) : lookupA d (l ++ [(k, v)]) = lookupA d l := by
  induction l with
  | nil => simp [lookupA, h]
  | cons p rest ih =>
    obtain ⟨k2, v2⟩ := p
    simp only [List.cons_append, lookupA]
    split
    · rfl
    · exact ih

theorem lookupA_append_self {κ β : Type} [DecidableEq κ] (k : κ) (v : β)
    (l : List (κ × β)) (h : lookupA k l = none) :
    lookupA k (l ++ [(k, v)]) = some v := by
  induction l with
  | nil => simp [lookupA]
  | cons p rest ih =>
    obtain ⟨k2, v2⟩ := p
    simp only [lookupA, List.cons_append] at h ⊢
    split at h
    · exact absurd h (by simp)
    · rename_i hne
      rw [if_neg hne]
      exact ih h

theorem lookupA_updateAssoc_self {κ β : Type} [DecidableEq κ] (k : κ) (f : β → β)
    (l : List (κ × β)) : lookupA k (updateAssoc k f l) = (lookupA k l).map f := by
  induction l with
  | nil => rfl
  | cons p rest ih =>
    obtain ⟨k2, v2⟩ := p
    simp only [updateAssoc]
    split
    · rename_i hk
      simp [lookupA, hk]
    · rename_i hk
      simp [lookupA, hk, ih]

theorem lookupA_updateAssoc_ne {κ β : Type} [DecidableEq κ] (d k : κ) (f : β → β)
    (l : List (κ × β)) (h : d ≠ k) :
    lookupA d (updateAssoc k f l) = lookupA d l := by
  induction l with
  | nil => rfl
  | cons p rest ih =>
    obtain ⟨k2, v2⟩ := p
    simp only [updateAssoc]
    split
    · rename_i hk
      subst hk
      simp [lookupA, h, ih]
    · rename_i hk
      simp only [lookupA]
      split
      · rfl
      · exact ih

/-!
Field-preservation lemmas for the ledger operations.
-/

@[simp] theorem dailyAdd_progress (db : DB) (d δ : Int) :
    (dailyAdd db d δ).progress = db.progress := by
  unfold dailyAdd; split <;> rfl

@[simp] theorem dailyAdd_books (db : DB) (d δ : Int) :
    (dailyAdd db d δ).books = db.books := by
  unfold dailyAdd; split <;> rfl

@[simp] theorem dailyAdd_settingsRows (db : DB) (d δ : Int) :
    (dailyAdd db d δ).settingsRows = db.settingsRows := by
  unfold dailyAdd; split <;> rfl

@[simp] theorem dailyAdd_clock (db : DB) (d δ : Int) :
    (dailyAdd db d δ).clock = db.clock := by
  unfold dailyAdd; split <;> rfl

@[simp] theorem setGoalMet_progress (db : DB) (d : Int) :
    (setGoalMet db d).progress = db.progress := rfl

@[simp] theorem setGoalMet_settingsRows (db : DB) (d : Int) :
    (setGoalMet db d).settingsRows = db.settingsRows := rfl

@[simp] theorem setGoalMet_clock (db : DB) (d : Int) :
    (setGoalMet db d).clock = db.clock := rfl

@[simp] theorem upsert_book_progress (db : DB) (asin title : String)
    (au : List String) (tp : Option Int) (cu : Option String) :
    (upsert_book db asin title au tp cu).progress = db.progress := by
  unfold upsert_book; split <;> rfl

@[simp] theorem upsert_book_daily (db : DB) (asin title : String)
    (au : List String) (tp : Option Int) (cu : Option String) :
    (upsert_book db asin title au tp cu).daily = db.daily := by
  unfold upsert_book; split <;> rfl

@[simp] theorem upsert_book_settingsRows (db : DB) (asin title : String)
    (au : List String) (tp : Option Int) (cu : Option String) :
    (upsert_book db asin title au tp cu).settingsRows = db.settingsRows := by
  unfold upsert_book; split <;> rfl

theorem get_today_key_settings_congr (now : Moment) (env : Env) {a b : DB}
    (h : a.settingsRows = b.settingsRows) :
    get_today_key now a env = get_today_key now b env := by
  unfold get_today_key resolveResetHour get_setting
  rw [h]

theorem resolveGoal_settings_congr (env : Env) {a b : DB}
    (h : a.settingsRows = b.settingsRows) : resolveGoal a env = resolveGoal b env := by
  unfold resolveGoal get_setting
  rw [h]

/-!
Daily-aggregate read lemmas.
-/

theorem lookupA_dailyAdd_self (db : DB) (d δ : Int) :
    lookupA d (dailyAdd db d δ).daily =
      some ⟨pagesRead db d + δ, goalMetAt db d, db.clock⟩ := by
  unfold dailyAdd pagesRead goalMetAt
  cases h : lookupA d db.daily with
  | none =>
    simp only [h]
    rw [zero_add]
    exact lookupA_append_self d _ db.daily h
  | some r =>
    simp only [h]
    rw [lookupA_updateAssoc_self, h]
    rfl

theorem lookupA_dailyAdd_ne (db : DB) (d δ e : Int) (h : e ≠ d) :
    lookupA e (dailyAdd db d δ).daily = lookupA e db.daily := by
  unfold dailyAdd
  cases h2 : lookupA d db.daily with
  | none =>
    simp only [h2]
    exact lookupA_append_ne d e _ db.daily h
  | some r =>
    simp only [h2]
    exact lookupA_updateAssoc_ne e d _ db.daily h

theorem pagesRead_dailyAdd_self (db : DB) (d δ : Int) :
    pagesRead (dailyAdd db d δ) d = pagesRead db d + δ := by
  unfold pagesRead
  rw [lookupA_dailyAdd_self]
  rfl

theorem pagesRead_dailyAdd_ne (db : DB) (d δ e : Int) (h : e ≠ d) :
    pagesRead (dailyAdd db d δ) e = pagesRead db e := by
  unfold pagesRead
  rw [lookupA_dailyAdd_ne db d δ e h]

theorem goalMetAt_dailyAdd_self (db : DB) (d δ : Int) :
    goalMetAt (dailyAdd db d δ) d = goalMetAt db d := by
  unfold goalMetAt
  rw [lookupA_dailyAdd_self]
  rfl

theorem goalMetAt_dailyAdd_ne (db : DB) (d δ e : Int) (h : e ≠ d) :
    goalMetAt (dailyAdd db d δ) e = goalMetAt db e := by
  unfold goalMetAt
  rw [lookupA_dailyAdd_ne db d δ e h]

theorem pagesRead_setGoalMet (db : DB) (d e : Int) :
    pagesRead (setGoalMet db d) e = pagesRead db e := by
  unfold pagesRead setGoalMet
  by_cases h : e = d
  · subst h
    rw [lookupA_updateAssoc_self]
    cases lookupA e db.daily <;> rfl
  · rw [lookupA_updateAssoc_ne e d _ db.daily h]

theorem goalMetAt_setGoalMet_self (db : DB) (d : Int) (r : DailyRow)
    (h : lookupA d db.daily = some r) :
    goalMetAt (setGoalMet db d) d = some db.clock := by
  unfold goalMetAt setGoalMet
  rw [lookupA_updateAssoc_self, h]
  rfl

theorem goalMetAt_setGoalMet_ne (db : DB) (d e : Int) (h : e ≠ d) :
    goalMetAt (setGoalMet db d) e = goalMetAt db e := by
  unfold goalMetAt setGoalMet
  rw [lookupA_updateAssoc_ne e d _ db.daily h]

/-!
Normal forms of record_progress in its three cases.
-/

theorem record_progress_none (env : Env) (now : Moment) (db : DB)
    (asin : String) (position percent : Int) (h : lastSnapshot db asin = none) :
    record_progress env now db asin position percent =
      withSnapshot db asin position percent := by
  unfold record_progress
  simp only [h]

theorem record_progress_noninc (env : Env) (now : Moment) (db : DB)
    (asin : String) (position percent : Int) (prev : Snapshot)
    (h : lastSnapshot db asin = some prev) (hle : position ≤ prev.position) :
    record_progress env now db asin position percent =
      withSnapshot db asin position percent := by
  unfold record_progress
  simp only [h]
  rw [if_neg (by omega)]

theorem get_today_stats_pages_read (env : Env) (now : Moment) (db : DB) :
    (get_today_stats env now db).pages_read
      = pagesRead db (get_today_key now db env) := by
  simp only [get_today_stats, pagesRead]
  cases h : lookupA (get_today_key now db env) db.daily <;> simp [h]

theorem get_today_stats_goal_met_at (env : Env) (now : Moment) (db : DB) :
    (get_today_stats env now db).goal_met_at
      = goalMetAt db (get_today_key now db env) := by
  simp only [get_today_stats, goalMetAt]
  cases h : lookupA (get_today_key now db env) db.daily <;> simp [h]

theorem record_progress_inc (env : Env) (now : Moment) (db : DB)
    (asin : String) (position percent : Int) (prev : Snapshot)
    (h : lastSnapshot db asin = some prev) (hlt : prev.position < position) :
    record_progress env now db asin position percent =
      (if resolveGoal db env ≤ pagesRead db (get_today_key now db env)
          ∧ goalMetAt db (get_today_key now db env) = none
       then setGoalMet
              (dailyAdd (withSnapshot db asin position percent)
                (get_today_key now db env) (position - prev.position))
              (get_today_key now db env)
       else dailyAdd (withSnapshot db asin position percent)
              (get_today_key now db env) (position - prev.position)) := by
  unfold record_progress
  simp only [h]
  rw [if_pos hlt]
  refine if_congr ?_ rfl rfl
  rw [get_today_stats_pages_read, get_today_stats_goal_met_at]

/-!
Book-table lookup lemmas for upsert_book.
-/

theorem lookupA_upsert_book_new (db : DB) (asin title : String)
    (au : List String) (tp : Option Int) (cu : Option String)
    (h : lookupA asin db.books = none) :
    lookupA asin (upsert_book db asin title au tp cu).books =
      some ⟨title, au, tp, cu, db.clock⟩ := by
  unfold upsert_book
  simp only [h]
  exact lookupA_append_self asin _ db.books h

theorem lookupA_upsert_book_old (db : DB) (asin title : String)
    (au : List String) (tp : Option Int) (cu : Option String) (old : BookRecord)
    (h : lookupA asin db.books = some old) :
    lookupA asin (upsert_book db asin title au tp cu).books =
      some ⟨title, au,
        (match tp with | some v => some v | none => old.total_pages),
        (match cu with | some v => some v | none => old.cover_url),
        db.clock⟩ := by
  unfold upsert_book
  simp only [h]
  rw [lookupA_updateAssoc_self, h]
  rfl

/-!
The claims.
-/

/-- Claim C1: recordProgress always appends a new snapshot; it changes the
day's pages_read only when a prior snapshot exists for the book and the new
position is strictly greater, in which case pages_read of the day key grows
by exactly position_new - position_old (other dates unchanged); the very
first snapshot of a book, and any call with a non-increasing position, leave
the daily aggregate unchanged. -/
theorem record_progress_delta_accumulation (env : Env) (now : Moment) (db : DB)
    (asin : String) (position percent : Int) :
    (record_progress env now db asin position percent).progress
        = db.progress ++ [⟨asin, position, percent, db.clock⟩]
    ∧ (lastSnapshot db asin = none →
        (record_progress env now db asin position percent).daily = db.daily)
    ∧ (∀ prev, lastSnapshot db asin = some prev → position ≤ prev.position →
        (record_progress env now db asin position percent).daily = db.daily)
    ∧ (∀ prev, lastSnapshot db asin = some prev → prev.position < position →
        pagesRead (record_progress env now db asin position percent)
            (get_today_key now db env)
          = pagesRead db (get_today_key now db env) + (position - prev.position)
        ∧ ∀ d, d ≠ get_today_key now db env →
            pagesRead (record_progress env now db asin position percent) d
              = pagesRead db d) := by
  refine ⟨?_, ?_, ?_, ?_⟩
  · rcases h : lastSnapshot db asin with _ | prev
    · rw [record_progress_none env now db asin position percent h]
      rfl
    · rcases lt_or_le prev.position position with hlt | hle
      · rw [record_progress_inc env now db asin position percent prev h hlt]
        split_ifs <;> simp [withSnapshot]
      · rw [record_progress_noninc env now db asin position percent prev h hle]
        rfl
  · intro h
    rw [record_progress_none env now db asin position percent h]
    rfl
  · intro prev h hle
    rw [record_progress_noninc env now db asin position percent prev h hle]
    rfl
  · intro prev h hlt
    rw [record_progress_inc env now db asin position percent prev h hlt]
    constructor
    · split_ifs with hc
      · rw [pagesRead_setGoalMet, pagesRead_dailyAdd_self]
        rfl
      · rw [pagesRead_dailyAdd_self]
        rfl
    · intro d hd
      split_ifs with hc
      · rw [pagesRead_setGoalMet, pagesRead_dailyAdd_ne _ _ _ _ hd]
        rfl
      · rw [pagesRead_dailyAdd_ne _ _ _ _ hd]
        rfl

/-- Witness for C1 at a concrete state: book b1 previously at position 50,
new position 75 on the same day adds exactly 25 pages. -/
theorem record_progress_delta_accumulation_witness :
    lastSnapshot dbSnapW "b1" = some ⟨"b1", 50, 16, 0⟩
    ∧ pagesRead (record_progress envW nowNoonW dbSnapW "b1" 75 25)
          (get_today_key nowNoonW dbSnapW envW)
        = pagesRead dbSnapW (get_today_key nowNoonW dbSnapW envW) + (75 - 50) :=
  ⟨rfl,
   ((record_progress_delta_accumulation envW nowNoonW dbSnapW "b1" 75 25).2.2.2
      ⟨"b1", 50, 16, 0⟩ rfl (by decide)).1⟩

/-- Claim C2, evaluated at the failing input (the claim is right about the
intent but the code sets goal_met_at one qualifying call late): with goal 30,
book b1 previously at committed position 50 and no daily row, the call
recordProgress("b1", 85) accumulates pages_read = 35 ≥ 30 with goal_met_at
unset — the claim says goal_met_at is set at this call — yet the code leaves
it unset, because the nested get_today_stats() reads through a fresh
connection that sees only the pre-delta committed pages_read of 0; the next
qualifying call recordProgress("b1", 95) then sets it, since the committed
total 35 already reaches the goal. -/
theorem record_progress_goal_met_delayed :
    resolveGoal dbSnapW envW = 30
    ∧ lastSnapshot dbSnapW "b1" = some ⟨"b1", 50, 16, 0⟩
    ∧ pagesRead dbSnapW (get_today_key nowNoonW dbSnapW envW) = 0
    ∧ goalMetAt dbSnapW (get_today_key nowNoonW dbSnapW envW) = none
    ∧ pagesRead (record_progress envW nowNoonW dbSnapW "b1" 85 28)
        (get_today_key nowNoonW dbSnapW envW) = 35
    ∧ goalMetAt (record_progress envW nowNoonW dbSnapW "b1" 85 28)
        (get_today_key nowNoonW dbSnapW envW) = none
    ∧ goalMetAt
        (record_progress envW nowNoonW
          (record_progress envW nowNoonW dbSnapW "b1" 85 28) "b1" 95 31)
        (get_today_key nowNoonW dbSnapW envW) ≠ none :=
  ⟨rfl, rfl, rfl, rfl, rfl, rfl, by decide⟩

/-- Claim C3: with configured reset hour h the ledger day key is the previous
calendar date exactly when the hour-of-day is below h and the current
calendar date otherwise. -/
theorem get_today_key_reset_rule (now : Moment) (db : DB) (env : Env) (h : Int)
    (hres : resolveResetHour db env = h) :
    ((now.hour : Int) < h → get_today_key now db env = now.day - 1)
    ∧ (h ≤ (now.hour : Int) → get_today_key now db env = now.day) := by
  unfold get_today_key
  rw [hres]
  constructor
  · intro hlt
    rw [if_pos hlt]
  · intro hle
    rw [if_neg (by omega)]

/-- Witness for C3: with reset hour 4, 03:59 maps to the previous day
ordinal and 04:00 maps to the current one. -/
theorem get_today_key_reset_rule_witness :
    resolveResetHour dbEmptyW envW = 4
    ∧ get_today_key ⟨100, 3, 59⟩ dbEmptyW envW = 100 - 1
    ∧ get_today_key ⟨100, 4, 0⟩ dbEmptyW envW = 100 :=
  ⟨rfl,
   (get_today_key_reset_rule ⟨100, 3, 59⟩ dbEmptyW envW 4 rfl).1 (by decide),
   (get_today_key_reset_rule ⟨100, 4, 0⟩ dbEmptyW envW 4 rfl).2 (by decide)⟩

/-- Claim C7: upsertBook merges optional fields — after an upsert stored
total_pages = 300-style values, a following upsert with absent total_pages /
cover_url keeps the stored values, while present new values replace them. -/
theorem upsert_book_merge_semantics (db : DB) (asin t1 t2 : String)
    (au1 au2 : List String) (v : Int) (u : String) (v2 : Int) (u2 : String) :
    ((lookupA asin (upsert_book (upsert_book db asin t1 au1 (some v) (some u))
          asin t2 au2 none none).books).map BookRecord.total_pages
        = some (some v)
      ∧ (lookupA asin (upsert_book (upsert_book db asin t1 au1 (some v) (some u))
          asin t2 au2 none none).books).map BookRecord.cover_url
        = some (some u))
    ∧ ((lookupA asin (upsert_book (upsert_book db asin t1 au1 (some v) (some u))
          asin t2 au2 (some v2) (some u2)).books).map BookRecord.total_pages
        = some (some v2)
      ∧ (lookupA asin (upsert_book (upsert_book db asin t1 au1 (some v) (some u))
          asin t2 au2 (some v2) (some u2)).books).map BookRecord.cover_url
        = some (some u2)) := by
  have h1 : lookupA asin (upsert_book db asin t1 au1 (some v) (some u)).books
      = some ⟨t1, au1, some v, some u, db.clock⟩ := by
    cases h : lookupA asin db.books with
    | none => exact lookupA_upsert_book_new db asin t1 au1 (some v) (some u) h
    | some old => exact lookupA_upsert_book_old db asin t1 au1 (some v) (some u) old h
  refine ⟨⟨?_, ?_⟩, ?_, ?_⟩ <;>
    rw [lookupA_upsert_book_old _ _ _ _ _ _ _ h1] <;> rfl

/-!
Extractor lemmas for claim C4.
-/

theorem scanWith_isSome_of_contains {α : Type} (m : List Char → Option α)
    (sub : List Char)
    (hm : ∀ t2, sub.isPrefixOf t2 = true → (m t2).isSome = true) :
    ∀ t, containsSub sub t = true → (scanWith m t).isSome = true := by
  intro t
  induction t with
  | nil =>
    intro h
    simp only [containsSub] at h
    have hsub : sub = [] := by
      cases sub with
      | nil => rfl
      | cons a l => simp at h
    subst hsub
    simpa [scanWith] using hm [] (by simp [List.isPrefixOf])
  | cons c cs ih =>
    intro h
    simp only [containsSub, Bool.or_eq_true] at h
    cases hmc : m (c :: cs) with
    | some r => simp [scanWith, hmc]
    | none =>
      simp only [scanWith, hmc]
      rcases h with h1 | h2
      · have hs := hm _ h1
        rw [hmc] at hs
        exact absurd hs (by simp)
      · exact ih h2

theorem pageMatchAt_lit12 (rest : List Char) :
    (pageMatchAt ("Page 12 of 340".toList ++ rest)).isSome = true := rfl

theorem findPattern_of_page_contains (t : List Char)
    (h : containsSub ("Page 12 of 340".toList) t = true) :
    ∃ c tot, findPattern t = some (Found.numeric c tot MatchKind.page) := by
  have hs := scanWith_isSome_of_contains pageMatchAt ("Page 12 of 340".toList)
    (fun t2 hp => by
      obtain ⟨rest, hrest⟩ := List.isPrefixOf_iff_prefix.mp hp
      rw [← hrest]
      exact pageMatchAt_lit12 rest) t h
  obtain ⟨pr, hpr⟩ := Option.isSome_iff_exists.mp hs
  exact ⟨pr.1, pr.2, by simp [findPattern, hpr]⟩

/-- Claim C4 counterexample: a fragment that contains both "Page 12 of 340"
and "45%" but whose leftmost Page-style match is "Page 2 of 3"; extraction
returns current=2, total=3, not current=12, total=340. -/
theorem pattern_priority_counterexample :
    containsSub ("Page 12 of 340".toList)
        ("Page 2 of 3 Page 12 of 340 45%".toList) = true
    ∧ containsSub ("45%".toList) ("Page 2 of 3 Page 12 of 340 45%".toList) = true
    ∧ extractFragment ("Page 2 of 3 Page 12 of 340 45%".toList)
        = some ⟨2, 3, 67⟩
    ∧ extractFragment ("Page 2 of 3 Page 12 of 340 45%".toList)
        ≠ some ⟨12, 340, 4⟩ := by
  refine ⟨rfl, rfl, rfl, by decide⟩

/-- Claim C4 as amended: the pattern rules are applied in fixed priority
order — (1) "Page X of Y", (2) "Loc/Location X of Y", (3) generic "X of Y",
(4) "Z%" — with the leftmost match of the winning rule taken: any fragment
containing "Page 12 of 340" yields a Page-rule numeric result (never the
bare percentage), and yields current=12, total=340 when that is its first
Page-style match; numeric matches normalize percent = round(current/total*100)
and percent-only matches normalize to (current=percent, total=100). -/
theorem pattern_priority_amended :
    (∀ t, containsSub ("Page 12 of 340".toList) t = true →
      ∃ c tot, findPattern t = some (Found.numeric c tot MatchKind.page))
    ∧ extractFragment ("Page 12 of 340 45%".toList) = some ⟨12, 340, 4⟩
    ∧ extractFragment ("Loc 10 of 100 45%".toList) = some ⟨10, 100, 10⟩
    ∧ extractFragment ("45%".toList) = some ⟨45, 100, 45⟩
    ∧ (∀ c tot k, applyFound (Found.numeric c tot k) = ⟨c, tot, jsRound100 c tot⟩)
    ∧ (∀ p, applyFound (Found.percentOnly p) = ⟨p, 100, p⟩) :=
  ⟨findPattern_of_page_contains, rfl, rfl, rfl, fun _ _ _ => rfl, fun _ => rfl⟩

/-- Witness for the amended C4: a fragment with surrounding text containing
"Page 12 of 340" is extracted by the Page rule. -/
theorem pattern_priority_amended_witness :
    containsSub ("Page 12 of 340".toList) ("see Page 12 of 340 now".toList) = true
    ∧ ∃ c tot, findPattern ("see Page 12 of 340 now".toList)
        = some (Found.numeric c tot MatchKind.page) :=
  ⟨rfl, pattern_priority_amended.1 ("see Page 12 of 340 now".toList) rfl⟩

/-!
Navigator lemmas for claim C8.
-/

theorem runLoginCheck_append_continue (cr : Creds) (pre l : List PageView)
    (hpre : ∀ q ∈ pre, (loginCheckStep cr q).1 = StepVerdict.continueLoop) :
    runLoginCheck cr (pre ++ l) = runLoginCheck cr l := by
  induction pre with
  | nil => rfl
  | cons q qs ih =>
    simp only [List.cons_append, runLoginCheck]
    rw [hpre q (by simp)]
    exact ih (fun x hx => hpre x (by simp [hx]))

/-- Claim C8: whenever the loop classifies the current page as a
multi-factor/verification/challenge subtype, that very attempt returns the
manual-2FA result, performs no page interaction (no credential fill, no
submit), and the whole login check ends as Manual2FARequired even after
earlier continuing attempts. -/
theorem mfa_immediate_manual_return (cr : Creds) (pv : PageView)
    (rest : List PageView) (h : classifyPage pv.url = PageClass.authChallenge true) :
    loginCheckStep cr pv = (StepVerdict.twofa, [])
    ∧ runLoginCheck cr (pv :: rest) = LoginResult.manual2fa
    ∧ ∀ pre : List PageView,
        (∀ q ∈ pre, (loginCheckStep cr q).1 = StepVerdict.continueLoop) →
        pre.length ≤ 4 →
        is_logged_in cr (pre ++ pv :: rest) = LoginResult.manual2fa := by
  have hstep : loginCheckStep cr pv = (StepVerdict.twofa, []) := by
    unfold loginCheckStep
    rw [h]
  refine ⟨hstep, ?_, ?_⟩
  · simp [runLoginCheck, hstep]
  · intro pre hpre hlen
    unfold is_logged_in
    rw [List.take_append_eq_append_take]
    rw [List.take_of_length_le (le_trans hlen (by norm_num))]
    have h5 : 5 - pre.length = (4 - pre.length) + 1 := by omega
    rw [h5, List.take_succ_cons]
    rw [runLoginCheck_append_continue cr pre _ hpre]
    simp [runLoginCheck, hstep]

/-- Witness for C8: a customer-verification URL is classified as a manual
challenge and the login check over a landing page followed by that page
returns Manual2FARequired. -/
theorem mfa_immediate_manual_return_witness :
    classifyPage pvMfaW.url = PageClass.authChallenge true
    ∧ loginCheckStep credsW pvMfaW = (StepVerdict.twofa, [])
    ∧ is_logged_in credsW [pvLandingW, pvMfaW] = LoginResult.manual2fa :=
  ⟨rfl,
   (mfa_immediate_manual_return credsW pvMfaW [] rfl).1,
   (mfa_immediate_manual_return credsW pvMfaW [] rfl).2.2 [pvLandingW]
     (fun q hq => by
       simp only [List.mem_singleton] at hq
       subst hq
       rfl)
     (by decide)⟩

/-- Claim C10: every book produced by library-view extraction has totalPages
fixed to 100 and currentPosition equal to the extracted percentComplete. -/
theorem library_percent_as_position (items : List RawItem) (b : LibExtracted)
    (h : b ∈ getLibraryBooks items) :
    b.totalPages = 100 ∧ b.currentPosition = b.percentComplete := by
  unfold getLibraryBooks at h
  obtain ⟨it, hmem, hex⟩ := List.mem_filterMap.mp h
  simp only [extractLibraryItem] at hex
  split_ifs at hex
  all_goals first
    | exact Option.noConfusion hex
    | (injection hex with hb
       subst hb
       exact ⟨rfl, rfl⟩)

/-- Witness for C10: the sample item extracts to a book with totalPages 100
and currentPosition equal to its 45 percent. -/
theorem library_percent_as_position_witness :
    bookW ∈ getLibraryBooks [itemW]
    ∧ bookW.totalPages = 100 ∧ bookW.currentPosition = bookW.percentComplete := by
  have he : getLibraryBooks [itemW] = [bookW] := rfl
  have hm : bookW ∈ getLibraryBooks [itemW] := by
    rw [he]
    exact List.mem_singleton.mpr rfl
  exact ⟨hm, library_percent_as_position [itemW] bookW hm⟩

/-!
Orchestrator helper lemmas.
-/

theorem record_progress_progress (env : Env) (now : Moment) (db : DB)
    (asin : String) (position percent : Int) :
    (record_progress env now db asin position percent).progress
      = db.progress ++ [⟨asin, position, percent, db.clock⟩] := by
  rcases h : lastSnapshot db asin with _ | prev
  · rw [record_progress_none env now db asin position percent h]
    rfl
  · rcases lt_or_le prev.position position with hlt | hle
    · rw [record_progress_inc env now db asin position percent prev h hlt]
      split_ifs <;> simp [withSnapshot]
    · rw [record_progress_noninc env now db asin position percent prev h hle]
      rfl

theorem processItem_withProgress (env : Env) (now : Moment) (w : ScrapeWorld)
    (i : Nat) (b : LibExtracted) (st : PassState) :
    (processItem env now w i b st).withProgress
      = st.withProgress +
        (match w.outcome i with
         | ItemOutcome.progressFound _ _ _ => 1
         | _ => 0) := by
  cases h : w.outcome i <;> simp [processItem, h]

theorem processItem_licenseTitles (env : Env) (now : Moment) (w : ScrapeWorld)
    (i : Nat) (b : LibExtracted) (st : PassState) :
    (processItem env now w i b st).licenseTitles
      = st.licenseTitles ++
        (match w.outcome i with
         | ItemOutcome.licenseLimit => [take40 b.title]
         | _ => []) := by
  cases h : w.outcome i <;> simp [processItem, h]

theorem processItem_progress_length (env : Env) (now : Moment) (w : ScrapeWorld)
    (i : Nat) (b : LibExtracted) (st : PassState) :
    (processItem env now w i b st).db.progress.length
      = st.db.progress.length +
        (match w.outcome i with
         | ItemOutcome.progressFound _ _ _ => 1
         | _ => 0) := by
  cases h : w.outcome i with
  | licenseLimit => simp [processItem, h]
  | noData => simp [processItem, h]
  | progressFound c t p =>
    simp only [processItem, h, record_progress_progress]
    split_ifs <;> simp

theorem runItems_withProgress (env : Env) (now : Moment) (w : ScrapeWorld)
    (books : List LibExtracted) :
    ∀ i st, (runItems env now w books i st).withProgress
      = st.withProgress + progressCountFrom w i books := by
  induction books with
  | nil => intro i st; simp [runItems, progressCountFrom]
  | cons b rest ih =>
    intro i st
    simp only [runItems, progressCountFrom]
    rw [ih, processItem_withProgress]
    cases h : w.outcome i <;> simp [h] <;> omega

theorem runItems_licenseTitles (env : Env) (now : Moment) (w : ScrapeWorld)
    (books : List LibExtracted) :
    ∀ i st, (runItems env now w books i st).licenseTitles
      = st.licenseTitles ++ licenseTitlesFrom w i books := by
  induction books with
  | nil => intro i st; simp [runItems, licenseTitlesFrom]
  | cons b rest ih =>
    intro i st
    simp only [runItems, licenseTitlesFrom]
    rw [ih, processItem_licenseTitles]
    cases h : w.outcome i <;> simp [h]

theorem runItems_progress_length (env : Env) (now : Moment) (w : ScrapeWorld)
    (books : List LibExtracted) :
    ∀ i st, (runItems env now w books i st).db.progress.length
      = st.db.progress.length + progressCountFrom w i books := by
  induction books with
  | nil => intro i st; simp [runItems, progressCountFrom]
  | cons b rest ih =>
    intro i st
    simp only [runItems, progressCountFrom]
    rw [ih, processItem_progress_length]
    cases h : w.outcome i <;> simp [h] <;> omega

theorem runItemsStream_state (env : Env) (now : Moment) (w : ScrapeWorld)
    (n : Nat) (books : List LibExtracted) :
    ∀ i st, (runItemsStream env now w n books i st).1 = runItems env now w books i st := by
  induction books with
  | nil => intro i st; rfl
  | cons b rest ih =>
    intro i st
    simp only [runItemsStream, runItems]
    exact ih _ _

theorem runItemsStream_events (env : Env) (now : Moment) (w : ScrapeWorld)
    (n : Nat) (books : List LibExtracted) :
    ∀ i st, (runItemsStream env now w n books i st).2
      = (List.enumFrom i books).flatMap (fun p =>
          [bookProgressDict (p.1 + 1) n (take40 p.2.title) p.2.asin,
           bookCompleteDict (p.1 + 1) n (take40 p.2.title) p.2.asin
             (itemPercentField (w.outcome p.1)) (itemSuccessField (w.outcome p.1))
             (itemErrorField (w.outcome p.1))]) := by
  induction books with
  | nil => intro i st; rfl
  | cons b rest ih =>
    intro i st
    simp only [runItemsStream, List.enumFrom, List.flatMap_cons]
    rw [ih]
    rfl

theorem runItemsStream_events_tags (env : Env) (now : Moment) (w : ScrapeWorld)
    (n : Nat) (books : List LibExtracted) :
    ∀ i st e, e ∈ (runItemsStream env now w n books i st).2 →
      lookupA "event" e = some (JVal.str "book_progress")
      ∨ lookupA "event" e = some (JVal.str "book_complete") := by
  induction books with
  | nil =>
    intro i st e he
    exact absurd he (by simp [runItemsStream])
  | cons b rest ih =>
    intro i st e he
    simp only [runItemsStream, List.mem_cons] at he
    rcases he with he | he | he
    · subst he
      left
      rfl
    · subst he
      right
      rfl
    · exact ih _ _ _ he

/-!
Dict-shape lemmas (closed key lookups on each result shape).
-/

theorem lookupA_timestamp_failDict (m : String) (ts : Int) :
    lookupA "timestamp" (failDict m ts) = some (JVal.int ts) := rfl

theorem lookupA_timestamp_successDict (n wp : Nat) (lims : List String) (ts : Int) :
    lookupA "timestamp" (successDict n wp lims ts) = some (JVal.int ts) := by
  unfold successDict
  split <;> rfl

theorem lookupA_event_errorDict (m : String) (r : Bool) :
    lookupA "event" (errorDict m r) = some (JVal.str "error") := rfl

theorem lookupA_timestamp_errorDict (m : String) (r : Bool) :
    lookupA "timestamp" (errorDict m r) = none := rfl

theorem lookupA_event_startedDict (total : Nat) (ts : Int) :
    lookupA "event" (startedDict total ts) = some (JVal.str "started") := rfl

theorem lookupA_event_completedDict (n wp : Nat) (dur ts : Int) (lims : List String) :
    lookupA "event" (completedDict n wp dur ts lims) = some (JVal.str "completed") := rfl

theorem lookupA_timestamp_completedDict (n wp : Nat) (dur ts : Int) (lims : List String) :
    lookupA "timestamp" (completedDict n wp dur ts lims) = some (JVal.int ts) := rfl

/-- Claim C5: for a streaming pass over N library items with no fatal error
the event sequence is exactly one started event carrying total_books = N,
then per item i (1-based, in order) one book_progress and one book_complete
event, then one terminal completed event; on a fatal failure the whole
output is a single error event. -/
theorem streaming_event_sequence (env : Env) (now : Moment) (w : ScrapeWorld)
    (db : DB) :
    (loginGate w = none → w.libraryRaises = false →
      (scrape_and_save_streaming env now w db).2 =
        startedDict (getLibraryBooks w.libItems).length w.ts ::
          ((List.enumFrom 0 (getLibraryBooks w.libItems)).flatMap (fun p =>
            [bookProgressDict (p.1 + 1) (getLibraryBooks w.libItems).length
               (take40 p.2.title) p.2.asin,
             bookCompleteDict (p.1 + 1) (getLibraryBooks w.libItems).length
               (take40 p.2.title) p.2.asin (itemPercentField (w.outcome p.1))
               (itemSuccessField (w.outcome p.1)) (itemErrorField (w.outcome p.1))])
          ++ [completedDict (getLibraryBooks w.libItems).length
                (progressCountFrom w 0 (getLibraryBooks w.libItems)) w.dur w.ts
                (licenseTitlesFrom w 0 (getLibraryBooks w.libItems))]))
    ∧ (∀ m, loginGate w = some m →
        (scrape_and_save_streaming env now w db).2 = [errorDict m false])
    ∧ (loginGate w = none → w.libraryRaises = true →
        (scrape_and_save_streaming env now w db).2
          = [errorDict w.libraryErrMsg false]) := by
  refine ⟨?_, ?_, ?_⟩
  · intro hg hlib
    simp only [scrape_and_save_streaming, hg, hlib, Bool.false_eq_true, if_false]
    rw [runItemsStream_events, runItemsStream_state, runItems_withProgress,
      runItems_licenseTitles]
    simp
  · intro m hm
    simp [scrape_and_save_streaming, hm]
  · intro hg hlib
    simp [scrape_and_save_streaming, hg, hlib]

/-- Witness for C5: the fatal-free sample world with one item and no reader
data produces exactly started, book_progress, book_complete, completed. -/
theorem streaming_event_sequence_witness :
    loginGate worldOkW = none
    ∧ (scrape_and_save_streaming envW nowNoonW worldOkW dbEmptyW).2 =
        startedDict 1 5 ::
          ([bookProgressDict 1 1 "The Great Book" "b1",
            bookCompleteDict 1 1 "The Great Book" "b1" none true none]
           ++ [completedDict 1 0 7 5 []]) :=
  ⟨rfl, (streaming_event_sequence envW nowNoonW worldOkW dbEmptyW).1 rfl rfl⟩

/-- Claim C6: a single item's license-limit or extraction miss never aborts
the pass — every fatal-free pass returns the success summary over all N
items, license-limited titles are collected into license_limit_books, a miss
appends no snapshot (the snapshot count grows exactly by the number of
progress-found items) — while a login failure, Manual2FARequired, or a
caught exception ends the pass with a structured failure value instead of a
propagated exception. -/
theorem scrape_partial_failure_policy (env : Env) (now : Moment)
    (w : ScrapeWorld) (db : DB) :
    (loginGate w = none → w.libraryRaises = false →
      (scrape_and_save env now w db).2 =
        successDict (getLibraryBooks w.libItems).length
          (progressCountFrom w 0 (getLibraryBooks w.libItems))
          (licenseTitlesFrom w 0 (getLibraryBooks w.libItems)) w.ts
      ∧ (scrape_and_save env now w db).1.progress.length =
          db.progress.length + progressCountFrom w 0 (getLibraryBooks w.libItems))
    ∧ (∀ m, loginGate w = some m →
        scrape_and_save env now w db = (db, failDict m w.ts))
    ∧ (loginGate w = none → w.libraryRaises = true →
        scrape_and_save env now w db = (db, failDict w.libraryErrMsg w.ts)) := by
  refine ⟨?_, ?_, ?_⟩
  · intro hg hlib
    constructor
    · simp only [scrape_and_save, hg, hlib, Bool.false_eq_true, if_false]
      rw [runItems_withProgress, runItems_licenseTitles]
      simp
    · simp only [scrape_and_save, hg, hlib, Bool.false_eq_true, if_false]
      rw [runItems_progress_length]
  · intro m hm
    simp [scrape_and_save, hm]
  · intro hg hlib
    simp [scrape_and_save, hg, hlib]

/-- Witness for C6: the fatal-free sample world returns the success summary
over its single item. -/
theorem scrape_partial_failure_policy_witness :
    loginGate worldOkW = none
    ∧ (scrape_and_save envW nowNoonW worldOkW dbEmptyW).2 = successDict 1 0 [] 5 :=
  ⟨rfl, ((scrape_partial_failure_policy envW nowNoonW worldOkW dbEmptyW).1 rfl rfl).1⟩

/-- Claim C9 counterexample: a fatal streaming pass ends in a terminal error
event that carries no timestamp field at all, contradicting the claim that
every terminal streaming event includes a timestamp. -/
theorem results_timestamp_counterexample :
    (scrape_and_save_streaming envW nowNoonW worldNoCredsW dbEmptyW).2
        = [errorDict msgNoCreds false]
    ∧ lookupA "event" (errorDict msgNoCreds false) = some (JVal.str "error")
    ∧ lookupA "timestamp" (errorDict msgNoCreds false) = none :=
  ⟨rfl, rfl, rfl⟩

/-- Claim C9 as amended: both batch summary shapes (success and failure)
carry a timestamp field, and the streaming completed terminal event carries
one, but streaming error events carry only message and recoverable — no
timestamp. -/
theorem results_timestamp_amended (env : Env) (now : Moment) (w : ScrapeWorld)
    (db : DB) :
    lookupA "timestamp" (scrape_and_save env now w db).2 = some (JVal.int w.ts)
    ∧ (∀ e ∈ (scrape_and_save_streaming env now w db).2,
        lookupA "event" e = some (JVal.str "completed") →
          lookupA "timestamp" e = some (JVal.int w.ts))
    ∧ (∀ e ∈ (scrape_and_save_streaming env now w db).2,
        lookupA "event" e = some (JVal.str "error") →
          lookupA "timestamp" e = none) := by
  refine ⟨?_, ?_, ?_⟩
  · cases hg : loginGate w with
    | some m =>
      simp only [scrape_and_save, hg]
      exact lookupA_timestamp_failDict m w.ts
    | none =>
      cases hlib : w.libraryRaises with
      | true =>
        simp only [scrape_and_save, hg, hlib, if_true]
        exact lookupA_timestamp_failDict w.libraryErrMsg w.ts
      | false =>
        simp only [scrape_and_save, hg, hlib, Bool.false_eq_true, if_false]
        exact lookupA_timestamp_successDict _ _ _ w.ts
  · intro e he htag
    cases hg : loginGate w with
    | some m =>
      simp only [scrape_and_save_streaming, hg, List.mem_singleton] at he
      subst he
      rw [lookupA_event_errorDict] at htag
      exact absurd htag (by decide)
    | none =>
      cases hlib : w.libraryRaises with
      | true =>
        simp only [scrape_and_save_streaming, hg, hlib, if_true,
          List.mem_singleton] at he
        subst he
        rw [lookupA_event_errorDict] at htag
        exact absurd htag (by decide)
      | false =>
        simp only [scrape_and_save_streaming, hg, hlib, Bool.false_eq_true,
          if_false, List.mem_cons, List.mem_append, List.mem_singleton] at he
        rcases he with he | he | he
        · subst he
          rw [lookupA_event_startedDict] at htag
          exact absurd htag (by decide)
        · rcases runItemsStream_events_tags env now w _ _ _ _ e he with ht | ht <;>
            rw [ht] at htag <;> exact absurd htag (by decide)
        · rcases he with he | he
          · subst he
            exact lookupA_timestamp_completedDict _ _ _ _ _
          · exact absurd he (List.not_mem_nil e)
  · intro e he htag
    cases hg : loginGate w with
    | some m =>
      simp only [scrape_and_save_streaming, hg, List.mem_singleton] at he
      subst he
      exact lookupA_timestamp_errorDict m false
    | none =>
      cases hlib : w.libraryRaises with
      | true =>
        simp only [scrape_and_save_streaming, hg, hlib, if_true,
          List.mem_singleton] at he
        subst he
        exact lookupA_timestamp_errorDict w.libraryErrMsg false
      | false =>
        simp only [scrape_and_save_streaming, hg, hlib, Bool.false_eq_true,
          if_false, List.mem_cons, List.mem_append, List.mem_singleton] at he
        rcases he with he | he | he
        · subst he
          rw [lookupA_event_startedDict] at htag
          exact absurd htag (by decide)
        · rcases runItemsStream_events_tags env now w _ _ _ _ e he with ht | ht <;>
            rw [ht] at htag <;> exact absurd htag (by decide)
        · rcases he with he | he
          · subst he
            rw [lookupA_event_completedDict] at htag
            exact absurd htag (by decide)
          · exact absurd he (List.not_mem_nil e)

/-- Witness for the amended C9: on the fatal-free sample world the batch
result and the streaming completed event carry the timestamp, and on the
fatal sample world the error event carries none. -/
theorem results_timestamp_amended_witness :
    lookupA "timestamp" (scrape_and_save envW nowNoonW worldOkW dbEmptyW).2
        = some (JVal.int 5)
    ∧ lookupA "timestamp" (completedDict 1 0 7 5 []) = some (JVal.int 5)
    ∧ lookupA "timestamp" (errorDict msgNoCreds false) = none :=
  ⟨(results_timestamp_amended envW nowNoonW worldOkW dbEmptyW).1,
   (results_timestamp_amended envW nowNoonW worldOkW dbEmptyW).2.1
     (completedDict 1 0 7 5 []) (by decide) rfl,
   (results_timestamp_amended envW nowNoonW worldNoCredsW dbEmptyW).2.2
     (errorDict msgNoCreds false) (by decide) rfl⟩

end KindleLock
